import Mathlib

set_option maxRecDepth 8000

/-!
Verification of the xpoll readiness-notification multiplexer (xpoll.c / xpoll.h).

The development shallowly embeds the three compile-time backends of xpoll:

* the scan backend (`poll(2)`, the `#else` branches of xpoll.c), whose whole
  state is explicit: the per-descriptor `pollfd` table, the opaque-data table
  `datav`, the table capacity `fdmax`, the poll span `nfds`, the pending ready
  count `nrdy` and the readiness cursor `n`;
* the kqueue backend's change-batching state (`changev`/`changec`) together
  with a log of the changelists handed to `kevent(2)`, and its
  millisecond-to-`timespec` conversion;
* the epoll variant of `xpoll_create`, instrumented with an allocation
  environment so that the cleanup behaviour of the `errout` path (which calls
  `xpoll_destroy`) can be stated.

Kernel interactions (`poll`, `epoll_wait`, `kevent` results) are passed in as
explicit outcome parameters, since they are external to the program.
-/

namespace Xpoll

/-- `POLLIN` on the target platforms (0x0001). -/
def POLLIN : Nat := 1

/-- `POLLOUT` on the target platforms (0x0004). -/
def POLLOUT : Nat := 4

/-- `POLLERR` (0x0008). -/
def POLLERR : Nat := 8

/-- `POLLHUP` (0x0010). -/
def POLLHUP : Nat := 16

/-- `errno` value `EINVAL`. -/
def EINVAL : Nat := 22

/-- `errno` value `ENOMEM`, set by a failing `calloc`. -/
def ENOMEM : Nat := 12

/-- `errno` value `EMFILE`, a typical `epoll_create1`/`kqueue` failure. -/
def EMFILE : Nat := 24

/-- xpoll.h, generic (poll-backend) operation code `XPOLL_ADD` = 0x0001. -/
def XPOLL_ADD : Nat := 1

/-- xpoll.h, `XPOLL_DELETE` = 0x0002. -/
def XPOLL_DELETE : Nat := 2

/-- xpoll.h, `XPOLL_ENABLE` = 0x0004. -/
def XPOLL_ENABLE : Nat := 4

/-- xpoll.h, `XPOLL_DISABLE` = 0x0008. -/
def XPOLL_DISABLE : Nat := 8

/-- Bitwise and-not on machine integers: `a & ~b` in C.  Written as
`a &&& (a ^^^ b)`, which agrees with and-not bit by bit (see
`testBit_andNot`) while staying evaluable by the kernel. -/
def andNot (a b : Nat) : Nat := a &&& (a ^^^ b)

/-- A `struct pollfd` entry: descriptor, interest mask, returned-events mask. -/
structure Pollfd where
  fd : Int
  events : Nat
  revents : Nat
deriving Repr, DecidableEq

/-- The `pollfd` value used as an out-of-table default when reading the
table (never actually read in-bounds traces). -/
def pfd0 : Pollfd := ⟨-1, 0, 0⟩

/-- State of `struct xpoll` for the scan (poll) backend.  `eventv` aliases
`fds` in this backend (`xpoll->eventv = xpoll->fds` in `xpoll_create`), so it
is not modelled separately.  `α` is the type of the opaque `void *data`. -/
structure ScanXpoll (α : Type) where
  fds : List Pollfd
  datav : List (Option α)
  fdmax : Nat
  nfds : Nat
  nrdy : Int
  n : Nat
deriving Repr, DecidableEq

/-- `xpoll_create` for the scan backend, assuming all allocations succeed
(allocation failure is modelled separately for the create claims).  Per the
source: reject `fdmax < 1` with `EINVAL`, otherwise size the tables to
`fdmax + 128` and initialize every `fds[i].fd` to `-1`; `nfds` starts at 0
(the struct is `calloc`ed and the `#else` branch never sets it). -/
def xpoll_create_scan (α : Type) (fdmaxArg : Int) : Option (ScanXpoll α) :=
  if fdmaxArg < 1 then none
  else
    let m := (fdmaxArg + 128).toNat
    some { fds := List.replicate m pfd0
           datav := List.replicate m none
           fdmax := m
           nfds := 0
           nrdy := 0
           n := 0 }

/-- Result of `xpoll_ctl`: `fatal` is the `abort()` call, `ok rc x` a normal
return of `rc` with updated state, `err e x` a `-1` return with `errno = e`. -/
inductive CtlResult (α : Type) where
  | fatal
  | ok (rc : Int) (x : ScanXpoll α)
  | err (errno : Nat) (x : ScanXpoll α)
deriving Repr, DecidableEq

/-- `xpoll_ctl` for the scan backend, translated line by line:
`abort()` on `fd < 0`; `EINVAL` error return on `fd >= fdmax`; then
`fds->fd = (op == XPOLL_DELETE) ? -1 : fd`, mask `events` with
`POLLIN|POLLOUT`, or the mask in on Add/Enable and clear it on
Delete/Disable; finally (scan branch) grow `nfds` to `fd + 1` if needed and
unconditionally store `data` in `datav[fd]`.  `rc` stays 0 (no native call). -/
def xpoll_ctl (x : ScanXpoll α) (op evArg : Nat) (fd : Int) (data : α) :
    CtlResult α :=
  if fd < 0 then CtlResult.fatal
  else if (x.fdmax : Int) ≤ fd then CtlResult.err EINVAL x
  else
    let i := fd.toNat
    let old := x.fds.getD i pfd0
    let ev := evArg &&& (POLLIN ||| POLLOUT)
    let newEvents :=
      if op = XPOLL_ADD ∨ op = XPOLL_ENABLE then old.events ||| ev
      else if op = XPOLL_DELETE ∨ op = XPOLL_DISABLE then
        andNot old.events ev
      else old.events
    let newFd : Int := if op = XPOLL_DELETE then -1 else fd
    CtlResult.ok 0
      { x with
        fds := x.fds.set i ⟨newFd, newEvents, old.revents⟩
        nfds := if x.nfds ≤ i then i + 1 else x.nfds
        datav := x.datav.set i (some data) }

/-- The state after a successful `xpoll_ctl` call (glue: projects the `ok`
case of `xpoll_ctl`, leaving the state unchanged otherwise). -/
def ctlOk (x : ScanXpoll α) (op evArg : Nat) (fd : Int) (data : α) :
    ScanXpoll α :=
  match xpoll_ctl x op evArg fd data with
  | CtlResult.ok _ y => y
  | _ => x

/-- Native outcome of one `poll(2)` call: its return value and the `fds`
table after the kernel wrote the `revents` fields. -/
structure PollOutcome where
  ret : Int
  fdsAfter : List Pollfd

/-- `xpoll_wait` for the scan backend: `xpoll->n = 0`, then
`xpoll->nrdy = poll(xpoll->eventv, xpoll->nfds, timeout)` (the kernel's
effect is the supplied `PollOutcome`), and the return value is `nrdy`. -/
def xpoll_wait (x : ScanXpoll α) (_timeout : Int) (o : PollOutcome) :
    Int × ScanXpoll α :=
  (o.ret, { x with n := 0, fds := o.fdsAfter, nrdy := o.ret })

/-- The scan loop of `xpoll_revents`, exactly as written in the source: the
local pointer `event` starts at `eventv[0]` (index `e = 0` at every call)
while the persistent cursor `n` resumes from its saved value; the loop runs
while `n < nfds`, and on a nonzero `revents` at `event` it yields
`(event->revents, datav[n])` and stops at `n + 1`.  The fuel argument equals
`nfds - n`, making the `n < nfds` guard structural. -/
def scanLoopAux (fds : List Pollfd) (datav : List (Option α)) :
    Nat → Nat → Nat → Option (Nat × Option α × Nat)
  | 0, _, _ => none
  | fuel + 1, e, n =>
    if (fds.getD e pfd0).revents ≠ 0 then
      some ((fds.getD e pfd0).revents, datav.getD n none, n + 1)
    else scanLoopAux fds datav fuel (e + 1) (n + 1)

/-- `xpoll_revents` for the scan backend: `*datap = NULL`; return 0 at once
(state untouched) when `nrdy < 1`; otherwise run the scan loop.  On a hit,
decrement `nrdy` and advance `n` to the yielded position; if the loop falls
off the end (`return 0; // Should never get here..`), `n` has been pushed to
`nfds` and `nrdy` is left unchanged.  Result: (returned event mask, `*datap`,
new state); mask 0 with no data is the `None` case of the spec. -/
def xpoll_revents (x : ScanXpoll α) : Nat × Option α × ScanXpoll α :=
  if x.nrdy < 1 then (0, none, x)
  else
    match scanLoopAux x.fds x.datav (x.nfds - x.n) 0 x.n with
    | some (rv, d, n') => (rv, d, { x with nrdy := x.nrdy - 1, n := n' })
    | none => (0, none, { x with n := max x.n x.nfds })

/-! ## The kqueue backend: change batching and timeout conversion -/

/-- `EVFILT_READ` (FreeBSD). -/
def EVFILT_READ : Int := -1

/-- `EVFILT_WRITE` (FreeBSD). -/
def EVFILT_WRITE : Int := -2

/-- `NELEM(xpoll->changev)`: the changelist array holds 8 entries
(`struct xpollev changev[8]` in xpoll.h). -/
def XPOLL_CHANGEV_CAP : Nat := 8

/-- One `struct kevent` change entry as filled by
`EV_SET(change, fd, filter, op, 0, 0, data)`. -/
structure KqChange (α : Type) where
  ident : Int
  filter : Int
  flags : Nat
  udata : α
deriving Repr, DecidableEq

/-- State of `struct xpoll` for the kqueue backend, restricted to the parts
the batching claims are about: the pending changelist (`changev` up to
`changec`) and a log of the changelists submitted to `kevent(2)` (each log
entry is the changelist of one `kevent` call).  Readiness fields mirror the
other backends. -/
structure KqXpoll (α : Type) where
  changev : List (KqChange α)
  submitted : List (List (KqChange α))
  nfds : Nat
  nrdy : Int
  n : Nat
deriving Repr, DecidableEq

/-- The change entries one kqueue-backend `xpoll_ctl` call appends: one
`EV_SET(change, fd, EVFILT_READ, op, 0, 0, data)` entry when `POLLIN` is
requested, then one `EVFILT_WRITE` entry when `POLLOUT` is requested. -/
def kqAdds (op evArg : Nat) (fd : Int) (data : α) : List (KqChange α) :=
  (if evArg &&& POLLIN ≠ 0 then [KqChange.mk fd EVFILT_READ op data]
   else [])
  ++ (if evArg &&& POLLOUT ≠ 0 then [KqChange.mk fd EVFILT_WRITE op data]
      else [])

/-- `xpoll_ctl` for the kqueue backend: `abort()` on `fd < 0` (`none`);
otherwise append one `EV_SET` entry per requested event kind (`kqAdds`),
set `changec` to the new count, and if `changec >= NELEM(changev) - 1`
submit the whole batch via `kevent` and reset `changec` to 0.  The
`kevent` return value is taken as 0. -/
def kq_ctl (x : KqXpoll α) (op evArg : Nat) (fd : Int) (data : α) :
    Option (Int × KqXpoll α) :=
  if fd < 0 then none
  else
    let c1 := x.changev ++ kqAdds op evArg fd data
    if XPOLL_CHANGEV_CAP - 1 ≤ c1.length then
      some (0, { x with changev := [], submitted := x.submitted ++ [c1] })
    else
      some (0, { x with changev := c1 })

/-- The kqueue backend's conversion of the millisecond timeout to the
`timespec` passed to `kevent(2)`: `NULL` (`none`) for a negative timeout,
otherwise `tv_sec = timeout / 1000` and
`tv_nsec = (timeout * 1000000) % 1000000`, exactly as in the source. -/
def kq_timeout_ts (timeout : Int) : Option (Int × Int) :=
  if 0 ≤ timeout then some (timeout / 1000, (timeout * 1000000) % 1000000)
  else none

/-- `xpoll_wait` for the kqueue backend: `xpoll->n = 0`, then a single
`kevent` call submitting the whole pending changelist together with the wait
request (logged as one submission), `changec = 0`, `nrdy` recording and
returning the kernel's result `kret`. -/
def kq_wait (x : KqXpoll α) (_timeout : Int) (kret : Int) : Int × KqXpoll α :=
  (kret,
   { x with
     n := 0
     submitted := x.submitted ++ [x.changev]
     changev := []
     nrdy := kret })

/-! ## The epoll variant of `xpoll_create`, with explicit allocations -/

/-- The heap blocks `xpoll_create` may allocate on the epoll backend: the
`struct xpoll` itself, the `fds` table, and the `eventv` buffer. -/
inductive Alloc where
  | handleStruct
  | fdsTable
  | eventvBuf
deriving Repr, DecidableEq

/-- Which of `xpoll_create`'s fallible native steps succeed. -/
structure CreateEnv where
  callocHandleOk : Bool
  callocFdsOk : Bool
  callocEventvOk : Bool
  epollCreateOk : Bool
deriving Repr, DecidableEq

/-- Observable outcome of `xpoll_create`: whether a handle was returned,
the resulting `errno`, which heap blocks are still allocated when it
returns, and whether the native epoll descriptor is still open. -/
structure CreateResult where
  returnedHandle : Bool
  errno : Nat
  live : List Alloc
  nativeOpen : Bool
deriving Repr, DecidableEq

/-- The frees performed by `xpoll_destroy` on the epoll backend:
`free(xpoll->fds)`, `free(xpoll->datav)` (never allocated on epoll) and
`free(xpoll->eventv)`.  The `struct xpoll` block itself is not freed
anywhere in `xpoll_destroy`. -/
def xpoll_destroy_frees (live : List Alloc) : List Alloc :=
  live.filter fun a =>
    match a with
    | Alloc.handleStruct => true
    | Alloc.fdsTable => false
    | Alloc.eventvBuf => false

/-- `xpoll_create` for the epoll backend, step by step: `errno = 0`; reject
`fdmax < 1` with `EINVAL`; `calloc` the struct (plain `NULL` return on
failure, nothing yet allocated); `calloc` the `fds` table; `calloc` the
`eventv` buffer; `epoll_create1`.  A failing step sets `errno` and jumps to
(or falls into) `errout`, which on nonzero `errno` calls `xpoll_destroy`
(closing the native descriptor and freeing the buffers per
`xpoll_destroy_frees`) and returns `NULL`. -/
def xpoll_create_epoll (fdmaxArg : Int) (env : CreateEnv) : CreateResult :=
  if fdmaxArg < 1 then
    { returnedHandle := false, errno := EINVAL, live := [], nativeOpen := false }
  else if ¬ env.callocHandleOk then
    { returnedHandle := false, errno := ENOMEM, live := [], nativeOpen := false }
  else if ¬ env.callocFdsOk then
    { returnedHandle := false, errno := ENOMEM
      live := xpoll_destroy_frees [Alloc.handleStruct], nativeOpen := false }
  else if ¬ env.callocEventvOk then
    { returnedHandle := false, errno := ENOMEM
      live := xpoll_destroy_frees [Alloc.handleStruct, Alloc.fdsTable]
      nativeOpen := false }
  else if ¬ env.epollCreateOk then
    { returnedHandle := false, errno := EMFILE
      live := xpoll_destroy_frees
        [Alloc.handleStruct, Alloc.fdsTable, Alloc.eventvBuf]
      nativeOpen := false }
  else
    { returnedHandle := true, errno := 0
      live := [Alloc.handleStruct, Alloc.fdsTable, Alloc.eventvBuf]
      nativeOpen := true }

/-! ## Concrete traces used by the scenario theorems -/

/-- The scan-backend handle returned by `xpoll_create(cap)` (all
allocations succeeding), with `Nat` as the opaque-data type. -/
def scanCreated (cap : Int) : ScanXpoll Nat :=
  (xpoll_create_scan Nat cap).getD ⟨[], [], 0, 0, 0, 0⟩

/-- The state after a successful `kq_ctl` call (glue: projects the `some`
case, leaving the state unchanged otherwise). -/
def kqCtlOk (x : KqXpoll α) (op evArg : Nat) (fd : Int) (data : α) :
    KqXpoll α :=
  match kq_ctl x op evArg fd data with
  | some (_, y) => y
  | none => x

/-- A freshly created kqueue-backend handle: empty changelist, no
submissions yet, `nfds = 128` as set by `xpoll_create`. -/
def kqInit : KqXpoll Nat := ⟨[], [], 128, 0, 0⟩

/-- Drain-cursor trace: `create(2)`, then `XPOLL_ADD POLLIN` on descriptors
0, 1 and 2 with data 10, 20, 30 (so `nfds = 3`). -/
def c2x3 : ScanXpoll Nat :=
  ctlOk (ctlOk (ctlOk (scanCreated 2) XPOLL_ADD POLLIN 0 10)
      XPOLL_ADD POLLIN 1 20) XPOLL_ADD POLLIN 2 30

/-- A `poll(2)` outcome for `c2x3`: descriptors 1 and 2 are ready
(`revents = POLLIN`), descriptor 0 is not, return value 2 — exactly the
number of entries with nonzero `revents`, as poll guarantees. -/
def c2out : PollOutcome := ⟨2, (c2x3.fds.set 1 ⟨1, 1, 1⟩).set 2 ⟨2, 1, 1⟩⟩

/-- The state after `xpoll_wait(c2x3, -1)` with outcome `c2out`. -/
def c2x4 : ScanXpoll Nat := (xpoll_wait c2x3 (-1) c2out).2

/-- The state after the first `xpoll_revents` call on `c2x4`. -/
def c2x5 : ScanXpoll Nat := (xpoll_revents c2x4).2.2

/-- Data-correspondence trace: same registrations as `c2x3`. -/
def c10x3 : ScanXpoll Nat :=
  ctlOk (ctlOk (ctlOk (scanCreated 2) XPOLL_ADD POLLIN 0 10)
      XPOLL_ADD POLLIN 1 20) XPOLL_ADD POLLIN 2 30

/-- A `poll(2)` outcome for `c10x3`: descriptors 0 and 2 ready, 1 not,
return value 2. -/
def c10out : PollOutcome := ⟨2, (c10x3.fds.set 0 ⟨0, 1, 1⟩).set 2 ⟨2, 1, 1⟩⟩

/-- The state after `xpoll_wait(c10x3, -1)` with outcome `c10out`. -/
def c10x4 : ScanXpoll Nat := (xpoll_wait c10x3 (-1) c10out).2

/-- The state after the first `xpoll_revents` call on `c10x4`. -/
def c10x5 : ScanXpoll Nat := (xpoll_revents c10x4).2.2

/-! ## Helper lemmas -/

theorem getD_set_self {β : Type _} (l : List β) (i : Nat) (a d : β)
    (h : i < l.length) : (l.set i a).getD i d = a := by
  simp [List.getD_eq_getElem?_getD, List.getElem?_set_self h]

theorem getD_set_ne {β : Type _} (l : List β) (i j : Nat) (a d : β)
    (h : i ≠ j) : (l.set i a).getD j d = l.getD j d := by
  simp [List.getD_eq_getElem?_getD, List.getElem?_set_ne h]

theorem testBit_andNot (a b i : Nat) :
    (andNot a b).testBit i = (a.testBit i && !(b.testBit i)) := by
  simp only [andNot, Nat.testBit_land, Nat.testBit_xor]
  cases a.testBit i <;> cases b.testBit i <;> rfl

theorem andNot_eq_ldiff (a b : Nat) : andNot a b = Nat.ldiff a b := by
  apply Nat.eq_of_testBit_eq
  intro i
  rw [testBit_andNot, Nat.testBit_ldiff]

theorem andNot_lor_self (a b : Nat) : andNot a b ||| a = a := by
  apply Nat.eq_of_testBit_eq
  intro i
  simp only [Nat.testBit_lor, testBit_andNot]
  cases a.testBit i <;> cases b.testBit i <;> rfl

/-- Characterization of a successful scan-backend `xpoll_ctl` call. -/
theorem ctlOk_eq (x : ScanXpoll α) (op evArg : Nat) (fd : Int) (d : α)
    (h0 : ¬ fd < 0) (h1 : ¬ (x.fdmax : Int) ≤ fd) :
    ctlOk x op evArg fd d =
      { x with
        fds := x.fds.set fd.toNat
          ⟨if op = XPOLL_DELETE then -1 else fd,
           if op = XPOLL_ADD ∨ op = XPOLL_ENABLE then
             (x.fds.getD fd.toNat pfd0).events ||| (evArg &&& (POLLIN ||| POLLOUT))
           else if op = XPOLL_DELETE ∨ op = XPOLL_DISABLE then
             andNot (x.fds.getD fd.toNat pfd0).events
               (evArg &&& (POLLIN ||| POLLOUT))
           else (x.fds.getD fd.toNat pfd0).events,
           (x.fds.getD fd.toNat pfd0).revents⟩
        nfds := if x.nfds ≤ fd.toNat then fd.toNat + 1 else x.nfds
        datav := x.datav.set fd.toNat (some d) } := by
  unfold ctlOk xpoll_ctl
  rw [if_neg h0, if_neg h1]

/-! ## Claim theorems -/

/-- C1 counterexample: with `create(2)` (capacity 2), `ctl` on `fd = 2`
(that is, `fd = capacity`, outside `[0, capacity)`) does not hit the
fatal `abort()` path — it succeeds normally, because the table was sized
to `capacity + 128`; and `ctl` on `fd = 200` (beyond the slack) returns a
normal `-1`/`EINVAL` error, again not the fatal path.  This refutes the
claim that every out-of-`[0, capacity)` descriptor aborts. -/
theorem C1_counterexample :
    xpoll_ctl (scanCreated 2) XPOLL_ADD POLLIN 2 7 ≠ CtlResult.fatal ∧
    xpoll_ctl (scanCreated 2) XPOLL_ADD POLLIN 200 7
      = CtlResult.err EINVAL (scanCreated 2) := by
  decide

/-- C1 amended: only a negative `fd` triggers the fatal `abort()` path;
a descriptor with `0 ≤ fd < fdmax` (where `fdmax` is `capacity + 128`, so
this includes `fd = capacity`) is processed normally with return code 0,
and `fd ≥ fdmax` yields a normal error return (`-1` with `errno = EINVAL`),
not an abort. -/
theorem C1_amended (α : Type) (x : ScanXpoll α) (op evArg : Nat) (fd : Int)
    (d : α) :
    (fd < 0 → xpoll_ctl x op evArg fd d = CtlResult.fatal) ∧
    ((x.fdmax : Int) ≤ fd → 0 ≤ fd →
      xpoll_ctl x op evArg fd d = CtlResult.err EINVAL x) ∧
    (0 ≤ fd → fd < (x.fdmax : Int) →
      ∃ y, xpoll_ctl x op evArg fd d = CtlResult.ok 0 y) := by
  refine ⟨fun h => ?_, fun h1 h2 => ?_, fun h1 h2 => ?_⟩
  · simp [xpoll_ctl, h]
  · rw [xpoll_ctl, if_neg (not_lt.mpr h2), if_pos h1]
  · rw [xpoll_ctl, if_neg (not_lt.mpr h1), if_neg (not_le.mpr h2)]
    exact ⟨_, rfl⟩

theorem C1_amended_witness :
    xpoll_ctl (scanCreated 2) XPOLL_ADD POLLIN (-1) 7 = CtlResult.fatal ∧
    xpoll_ctl (scanCreated 2) XPOLL_ADD POLLIN 200 7
      = CtlResult.err EINVAL (scanCreated 2) ∧
    (∃ y, xpoll_ctl (scanCreated 2) XPOLL_ADD POLLIN 2 7
      = CtlResult.ok 0 y) :=
  ⟨(C1_amended Nat (scanCreated 2) XPOLL_ADD POLLIN (-1) 7).1 (by decide),
   (C1_amended Nat (scanCreated 2) XPOLL_ADD POLLIN 200 7).2.1
     (by decide) (by decide),
   (C1_amended Nat (scanCreated 2) XPOLL_ADD POLLIN 2 7).2.2
     (by decide) (by decide)⟩

/-- C2: a wait that returned 2 is followed by only one non-`None`
`next_event`; the second call yields `None` while one event is still
pending (`nrdy = 1`).  The trace: `create(2)`, register descriptors 0, 1,
2 for `POLLIN`, poll reports descriptors 1 and 2 ready (return 2 — and the
outcome really has exactly 2 entries with nonzero `revents` within `nfds`,
as `poll(2)` guarantees).  The first `xpoll_revents` correctly yields
`(POLLIN, data 20)` and moves the cursor to 2, but the second call restarts
its local `event` pointer at `eventv[0]` while `n` resumes at 2, so the loop
exhausts (`n` reaches `nfds`) and hits the `return 0; // Should never get
here..` line with `nrdy` still 1 — contradicting both the claim and the
code's own comment. -/
theorem C2_code_bug :
    (xpoll_wait c2x3 (-1) c2out).1 = 2 ∧
    ((c2out.fdsAfter.take c2x4.nfds).countP fun p => p.revents != 0) = 2 ∧
    (xpoll_revents c2x4).1 = 1 ∧
    (xpoll_revents c2x4).2.1 = some 20 ∧
    (xpoll_revents c2x5).1 = 0 ∧
    (xpoll_revents c2x5).2.1 = none ∧
    (xpoll_revents c2x5).2.2.nrdy = 1 := by
  decide

/-- C5: the kqueue backend's timeout conversion.  Negative timeouts pass
`NULL` (block forever) and a zero timeout yields a zero `timespec`
(non-blocking poll), as claimed; but for the positive timeout 500 ms the
code computes `tv_nsec = (500 * 1000000) % 1000000 = 0`, not the claimed
`(500 % 1000)` milliseconds (= 500000000 ns) of sub-second wait, so a
500 ms bound degenerates to a non-blocking poll. -/
theorem C5_code_bug :
    kq_timeout_ts (-1) = none ∧
    kq_timeout_ts 0 = some (0, 0) ∧
    kq_timeout_ts 500 = some (500 / 1000, 0) ∧
    ((500 : Int) % 1000) * 1000000 = 500000000 ∧
    (0 : Int) ≠ 500000000 := by
  decide

/-- C6: on every backend, `xpoll_wait` resets the readiness cursor `n` to
0, records the native result in `nrdy` (the count of pending events), and
returns that native result unchanged — hence negative exactly on native
failure, 0 on an empty timeout, and the positive ready count otherwise. -/
theorem C6_theorem (α : Type) (x : ScanXpoll α) (t : Int) (o : PollOutcome)
    (y : KqXpoll α) (kt kret : Int) :
    (xpoll_wait x t o).1 = o.ret ∧
    (xpoll_wait x t o).2.n = 0 ∧
    (xpoll_wait x t o).2.nrdy = o.ret ∧
    (kq_wait y kt kret).1 = kret ∧
    (kq_wait y kt kret).2.n = 0 ∧
    (kq_wait y kt kret).2.nrdy = kret :=
  ⟨rfl, rfl, rfl, rfl, rfl, rfl⟩

/-- C8: for every capacity below 1 and every allocation environment,
`xpoll_create` fails with `errno = EINVAL`, returns no handle, leaves no
allocation live and no native descriptor open. -/
theorem C8_theorem (cap : Int) (env : CreateEnv) (h : cap < 1) :
    xpoll_create_epoll cap env =
      { returnedHandle := false, errno := EINVAL, live := []
        nativeOpen := false } := by
  rw [xpoll_create_epoll, if_pos h]

theorem C8_witness :
    xpoll_create_epoll 0 ⟨true, true, true, true⟩ =
      { returnedHandle := false, errno := EINVAL, live := []
        nativeOpen := false } :=
  C8_theorem 0 ⟨true, true, true, true⟩ (by decide)

/-- C9: when `xpoll_create(1)` fails because the `fds` table allocation
fails (and likewise when the native `epoll_create1` fails), the `errout`
path runs `xpoll_destroy`, which closes the native descriptor and frees the
buffers but never frees the `struct xpoll` block itself — so the handle
struct allocation is still live on return, contradicting the claim that
every partial allocation is released. -/
theorem C9_code_bug :
    xpoll_create_epoll 1 ⟨true, false, true, true⟩ =
      { returnedHandle := false, errno := ENOMEM
        live := [Alloc.handleStruct], nativeOpen := false } ∧
    xpoll_create_epoll 1 ⟨true, true, true, false⟩ =
      { returnedHandle := false, errno := EMFILE
        live := [Alloc.handleStruct], nativeOpen := false } ∧
    ([Alloc.handleStruct] : List Alloc) ≠ [] := by
  decide

/-- When the first index with nonzero `revents` from the start of the table
is `j`, and the loop starts with its local event index equal to the cursor
(`k`), the scan loop yields entry `j`'s `revents` with `datav[j]`, leaving
the cursor at `j + 1`. -/
theorem scanLoopAux_first (fds : List Pollfd) (datav : List (Option α))
    (j : Nat) (hready : (fds.getD j pfd0).revents ≠ 0) :
    ∀ fuel k, k ≤ j → j < k + fuel →
      (∀ i, k ≤ i → i < j → (fds.getD i pfd0).revents = 0) →
      scanLoopAux fds datav fuel k k
        = some ((fds.getD j pfd0).revents, datav.getD j none, j + 1) := by
  intro fuel
  induction fuel with
  | zero => intro k hk hlt _; omega
  | succ m ih =>
    intro k hk hlt hz
    by_cases hkj : k = j
    · subst hkj
      rw [scanLoopAux, if_pos hready]
    · have hklt : k < j := lt_of_le_of_ne hk hkj
      have hk0 : (fds.getD k pfd0).revents = 0 := hz k le_rfl hklt
      rw [scanLoopAux, if_neg (by simpa using hk0)]
      exact ih (k + 1) hklt (by omega)
        (fun i hi hij => hz i (by omega) hij)

/-- C3 counterexample: after `Add` of `POLLIN|POLLOUT` (mask 5) on
descriptor 0, a `Delete` that passes only `POLLIN` leaves `POLLOUT` still
set in the slot's interest mask, and the stored opaque data is the
`Delete` call's own `data` argument (8) rather than being forgotten — so
`Delete` does not clear all interest regardless of the flags passed. -/
theorem C3_counterexample :
    ((ctlOk (ctlOk (scanCreated 2) XPOLL_ADD 5 0 7)
        XPOLL_DELETE 1 0 8).fds.getD 0 pfd0).events = POLLOUT ∧
    POLLOUT ≠ 0 ∧
    (ctlOk (ctlOk (scanCreated 2) XPOLL_ADD 5 0 7)
        XPOLL_DELETE 1 0 8).datav.getD 0 none = some 8 := by
  decide

/-- C3 amended: `Delete` clears only the interest flags passed to it
(masked to `POLLIN|POLLOUT`), marks the slot inactive (`fd = -1`) and
overwrites the stored data with its own `data` argument; nevertheless, for
every valid `fd` whose slot carries no prior interest, `Add F`, `Delete G`,
`Add F` (same flags and data in both `Add`s, any flags/data in the
`Delete`) produces exactly the state of a single fresh `Add F` — the final
`Add` re-establishes all of `F`, so nothing residual remains
observable. -/
theorem C3_amended (α : Type) (x : ScanXpoll α) (F G : Nat) (fd : Int)
    (d d' : α) (h0 : 0 ≤ fd) (h1 : fd < (x.fdmax : Int))
    (hlen : fd.toNat < x.fds.length)
    (hfresh : (x.fds.getD fd.toNat pfd0).events = 0) :
    ctlOk (ctlOk (ctlOk x XPOLL_ADD F fd d) XPOLL_DELETE G fd d')
        XPOLL_ADD F fd d
      = ctlOk x XPOLL_ADD F fd d := by
  have h0' : ¬ fd < 0 := not_lt.mpr h0
  have h1' : ¬ (x.fdmax : Int) ≤ fd := not_le.mpr h1
  have hn1 : ¬ ((if x.nfds ≤ fd.toNat then fd.toNat + 1 else x.nfds)
      ≤ fd.toNat) := by
    split <;> omega
  have hfresh2 : x.fds[fd.toNat].events = 0 := by
    rwa [List.getD_eq_getElem _ _ hlen] at hfresh
  simp only [ctlOk, xpoll_ctl]
  simp [h0', h1', hn1, getD_set_self, hlen, List.set_set, List.length_set,
    XPOLL_ADD, XPOLL_DELETE, XPOLL_ENABLE, XPOLL_DISABLE,
    hfresh2, andNot_lor_self]

theorem C3_amended_witness :
    ctlOk (ctlOk (ctlOk (scanCreated 2) XPOLL_ADD 5 0 7)
        XPOLL_DELETE 1 0 8) XPOLL_ADD 5 0 7
      = ctlOk (scanCreated 2) XPOLL_ADD 5 0 7 :=
  C3_amended Nat (scanCreated 2) 5 1 0 7 8 (by decide) (by decide)
    (by decide) (by decide)

/-- C4: `Enable F` followed by `Disable F` on a valid descriptor whose
interest mask is within `POLLIN|POLLOUT` (as every mask reached through
the API is) leaves no active interest in any flag of `F`, and neither call
changes the activation state of any interest bit outside `F`, on this or
any other descriptor slot. -/
theorem C4_theorem (α : Type) (x : ScanXpoll α) (F : Nat) (fd : Int)
    (d d' : α) (h0 : 0 ≤ fd) (h1 : fd < (x.fdmax : Int))
    (hlen : fd.toNat < x.fds.length)
    (hmask : (x.fds.getD fd.toNat pfd0).events &&& (POLLIN ||| POLLOUT)
      = (x.fds.getD fd.toNat pfd0).events) :
    (((ctlOk (ctlOk x XPOLL_ENABLE F fd d) XPOLL_DISABLE F fd d').fds.getD
        fd.toNat pfd0).events &&& F = 0) ∧
    (∀ b : Nat, F.testBit b = false →
      ((ctlOk x XPOLL_ENABLE F fd d).fds.getD fd.toNat pfd0).events.testBit b
        = (x.fds.getD fd.toNat pfd0).events.testBit b ∧
      ((ctlOk (ctlOk x XPOLL_ENABLE F fd d) XPOLL_DISABLE F fd d').fds.getD
          fd.toNat pfd0).events.testBit b
        = (x.fds.getD fd.toNat pfd0).events.testBit b) ∧
    (∀ j : Nat, j ≠ fd.toNat →
      (ctlOk (ctlOk x XPOLL_ENABLE F fd d) XPOLL_DISABLE F fd d').fds.getD
          j pfd0
        = x.fds.getD j pfd0) := by
  have h0' : ¬ fd < 0 := not_lt.mpr h0
  have h1' : ¬ (x.fdmax : Int) ≤ fd := not_le.mpr h1
  have hmask2 : x.fds[fd.toNat].events &&& (POLLIN ||| POLLOUT)
      = x.fds[fd.toNat].events := by
    rwa [List.getD_eq_getElem _ _ hlen] at hmask
  simp only [ctlOk, xpoll_ctl]
  simp [h0', h1', XPOLL_ADD, XPOLL_DELETE, XPOLL_ENABLE, XPOLL_DISABLE,
    getD_set_self, hlen, List.set_set, List.length_set]
  refine ⟨?_, ?_, ?_⟩
  · apply Nat.eq_of_testBit_eq
    intro b
    have heb : x.fds[fd.toNat].events.testBit b
        = (x.fds[fd.toNat].events.testBit b
            && (POLLIN ||| POLLOUT).testBit b) := by
      conv_lhs => rw [← hmask2, Nat.testBit_land]
    simp only [Nat.testBit_land, testBit_andNot, Nat.testBit_lor,
      Nat.zero_testBit] at heb ⊢
    cases hF : F.testBit b <;>
      cases hI : POLLIN.testBit b <;>
        cases hO : POLLOUT.testBit b <;>
          cases hE : x.fds[fd.toNat].events.testBit b <;>
            simp_all
  · intro b hb
    refine ⟨fun hFb _ => ?_, ?_⟩
    · rw [hb] at hFb
      exact absurd hFb (by simp)
    · simp [hb, testBit_andNot, Nat.testBit_lor, Nat.testBit_land]
  · intro j hj
    rw [List.getElem?_set_ne (Ne.symm hj)]

theorem C4_witness :
    ((ctlOk (ctlOk (scanCreated 2) XPOLL_ENABLE POLLOUT 1 3)
        XPOLL_DISABLE POLLOUT 1 4).fds.getD 1 pfd0).events &&& POLLOUT
      = 0 :=
  (C4_theorem Nat (scanCreated 2) POLLOUT 1 3 4 (by decide) (by decide)
    (by decide) (by decide)).1

/-- C7: the kqueue backend's batching discipline.  One `xpoll_ctl` call
appends exactly one change entry per requested event kind (`kqAdds`); when
the pending count as low as two below the array capacity on entry (the
invariant every reachable state satisfies, starting from `changec = 0` at
creation), the updated changelist never outgrows the 8-entry array; the
batch is flushed through a `kevent` submission before returning exactly
when the count reaches the `NELEM(changev) - 1` threshold, re-establishing
the invariant; and `xpoll_wait` submits all still-pending entries together
with the wait request in its single `kevent` call, leaving the pending
count at zero. -/
theorem C7_theorem (α : Type) (x : KqXpoll α) (op evArg : Nat) (fd : Int)
    (d : α) (t kret : Int) (hfd : 0 ≤ fd)
    (hinv : x.changev.length ≤ XPOLL_CHANGEV_CAP - 2) :
    (kqAdds op evArg fd d (α := α)).length
      = (if evArg &&& POLLIN ≠ 0 then 1 else 0)
        + (if evArg &&& POLLOUT ≠ 0 then 1 else 0) ∧
    x.changev.length + (kqAdds op evArg fd d (α := α)).length
      ≤ XPOLL_CHANGEV_CAP ∧
    (XPOLL_CHANGEV_CAP - 1
        ≤ x.changev.length + (kqAdds op evArg fd d (α := α)).length →
      kq_ctl x op evArg fd d = some (0,
        { x with changev := []
                 submitted := x.submitted
                   ++ [x.changev ++ kqAdds op evArg fd d] })) ∧
    (x.changev.length + (kqAdds op evArg fd d (α := α)).length
        < XPOLL_CHANGEV_CAP - 1 →
      kq_ctl x op evArg fd d = some (0,
        { x with changev := x.changev ++ kqAdds op evArg fd d })) ∧
    (kqCtlOk x op evArg fd d).changev.length ≤ XPOLL_CHANGEV_CAP - 2 ∧
    (kq_wait x t kret).2.changev = [] ∧
    (kq_wait x t kret).2.submitted = x.submitted ++ [x.changev] := by
  have hfd' : ¬ fd < 0 := not_lt.mpr hfd
  have hL : (kqAdds op evArg fd d (α := α)).length
      = (if evArg &&& POLLIN ≠ 0 then 1 else 0)
        + (if evArg &&& POLLOUT ≠ 0 then 1 else 0) := by
    unfold kqAdds
    split <;> split <;> simp
  have hL2 : (kqAdds op evArg fd d (α := α)).length ≤ 2 := by
    rw [hL]; split <;> split <;> omega
  refine ⟨hL, ?_, fun hth => ?_, fun hth => ?_, ?_, rfl, rfl⟩
  · unfold XPOLL_CHANGEV_CAP at *
    omega
  · rw [kq_ctl, if_neg hfd']
    have hc : XPOLL_CHANGEV_CAP - 1
        ≤ (x.changev ++ kqAdds op evArg fd d).length := by
      rw [List.length_append]; exact hth
    rw [if_pos hc]
  · rw [kq_ctl, if_neg hfd']
    have hc : ¬ (XPOLL_CHANGEV_CAP - 1
        ≤ (x.changev ++ kqAdds op evArg fd d).length) := by
      rw [List.length_append]; omega
    rw [if_neg hc]
  · rw [kqCtlOk, kq_ctl, if_neg hfd']
    by_cases hc : XPOLL_CHANGEV_CAP - 1
        ≤ (x.changev ++ kqAdds op evArg fd d).length
    · rw [if_pos hc]
      simp [XPOLL_CHANGEV_CAP]
    · rw [if_neg hc]
      rw [List.length_append] at hc
      simp only [List.length_append]
      unfold XPOLL_CHANGEV_CAP at *
      omega

theorem C7_witness :
    (kqCtlOk kqInit 1 5 3 7).changev.length ≤ XPOLL_CHANGEV_CAP - 2 ∧
    (kq_wait kqInit 0 0).2.changev = [] :=
  ⟨(C7_theorem Nat kqInit 1 5 3 7 0 0 (by decide)
      (by decide)).2.2.2.2.1,
   (C7_theorem Nat kqInit 1 5 3 7 0 0 (by decide)
      (by decide)).2.2.2.2.2.1⟩

/-- C10 counterexample: after a wait reporting descriptors 0 and 2 ready
(data 10, 20, 30 were stored for descriptors 0, 1, 2), the first
`xpoll_revents` correctly yields descriptor 0's data 10, but the second
call — its `event` pointer restarting at `eventv[0]` while the cursor `n`
resumes at 1 — yields entry 0's still-set `revents` paired with
`datav[1] = 20`, the data of descriptor 1, which is not ready
(`revents = 0`); the remaining ready descriptor 2's most recent `ctl` data
is 30.  So the data yielded is not the most recent `ctl` data of a ready
descriptor. -/
theorem C10_counterexample :
    (xpoll_revents c10x4).1 = 1 ∧
    (xpoll_revents c10x4).2.1 = some 10 ∧
    (xpoll_revents c10x5).1 = 1 ∧
    (xpoll_revents c10x5).2.1 = some 20 ∧
    (c10x5.fds.getD 1 pfd0).revents = 0 ∧
    c10x5.datav.getD 1 none = some 20 ∧
    c10x5.datav.getD 2 none = some 30 := by
  decide

/-- C10 amended: (i) every `ctl` call with an in-range descriptor — any
operation, `Disable` and `Delete` included — overwrites the stored opaque
data for `fd` with that call's `data` argument and changes no other slot's
data; (ii) on the first `next_event` call after a wait (cursor at 0, at
least one event pending), the local event pointer and the cursor agree, so
the call yields the first ready entry's `revents` together with exactly
that descriptor's stored data. -/
theorem C10_amended (α : Type) (x : ScanXpoll α) (op evArg : Nat)
    (fd : Int) (d : α) (j : Nat)
    (h0 : 0 ≤ fd) (h1 : fd < (x.fdmax : Int))
    (hdl : fd.toNat < x.datav.length)
    (hn : x.n = 0) (hr : 1 ≤ x.nrdy) (hj : j < x.nfds)
    (hz : ∀ i, i < j → (x.fds.getD i pfd0).revents = 0)
    (hready : (x.fds.getD j pfd0).revents ≠ 0) :
    (ctlOk x op evArg fd d).datav.getD fd.toNat none = some d ∧
    (∀ k : Nat, k ≠ fd.toNat →
      (ctlOk x op evArg fd d).datav.getD k none = x.datav.getD k none) ∧
    xpoll_revents x
      = ((x.fds.getD j pfd0).revents, x.datav.getD j none,
         { x with nrdy := x.nrdy - 1, n := j + 1 }) := by
  have h0' : ¬ fd < 0 := not_lt.mpr h0
  have h1' : ¬ (x.fdmax : Int) ≤ fd := not_le.mpr h1
  refine ⟨?_, ?_, ?_⟩
  · rw [ctlOk_eq x op evArg fd d h0' h1']
    exact getD_set_self _ _ _ _ hdl
  · intro k hk
    rw [ctlOk_eq x op evArg fd d h0' h1']
    exact getD_set_ne _ _ _ _ _ (Ne.symm hk)
  · have hguard : ¬ x.nrdy < 1 := not_lt.mpr hr
    rw [xpoll_revents, if_neg hguard, hn, Nat.sub_zero,
      scanLoopAux_first x.fds x.datav j hready x.nfds 0 (Nat.zero_le j)
        (by omega) (fun i _ hij => hz i hij)]

theorem C10_amended_witness :
    (ctlOk c10x4 XPOLL_DISABLE POLLIN 1 99).datav.getD 1 none = some 99 ∧
    xpoll_revents c10x4
      = ((c10x4.fds.getD 0 pfd0).revents, c10x4.datav.getD 0 none,
         { c10x4 with nrdy := c10x4.nrdy - 1, n := 1 }) :=
  ⟨(C10_amended Nat c10x4 XPOLL_DISABLE POLLIN 1 99 0 (by decide)
      (by decide) (by decide) rfl (by decide) (by decide)
      (fun i hi => absurd hi (Nat.not_lt_zero i)) (by decide)).1,
   (C10_amended Nat c10x4 XPOLL_DISABLE POLLIN 1 99 0 (by decide)
      (by decide) (by decide) rfl (by decide) (by decide)
      (fun i hi => absurd hi (Nat.not_lt_zero i)) (by decide)).2.2⟩

end Xpoll
